import Mathlib

/-!
Verification development for the asgard-manager VM execution core.

The definitions below are a shallow embedding of the Rust sources:
  * `src/device_emulation/block_device.rs` — the virtio-MMIO block device
    (`VirtioBlockDevice::new`, `read_mmio`, `write_mmio`,
    `process_descriptor_chain`);
  * `src/vm_setup/linux_setup.rs` — the KVM vCPU run loop in `run_vm` and
    the reduction of per-vCPU results;
  * `src/vm_setup/setup_utils.rs` — `VmSetup::new`.

Machine integers are modelled as `Nat` with explicit `% 2 ^ 64` wherever the
Rust code performs `u64` arithmetic that can wrap (release-mode overflow
semantics).  Guest memory and the backing disk image are byte lists; fallible
guest-memory accesses return `Option`.  The external `virtio-queue` crate is
modelled at the level the device code uses it: `pop_descriptor_chain` yields
descriptor chains from a list, `add_used` appends a `(head, len)` pair to an
abstract used ring, and `needs_notification` returns a boolean flag carried in
the device state.  A Rust `panic` (out-of-range slice indexing on the backing
mmap) is a distinguished outcome, separate from the early-`return` paths.
-/

/-- Wrap-around modulus of 64-bit unsigned arithmetic. -/
def u64Mod : Nat := 2 ^ 64

/-- Guest physical memory: one contiguous region with a base guest address and
its bytes, mirroring the single-region `GuestMemoryMmap` the device holds. -/
structure GuestMem where
  base : Nat
  bytes : List Nat
deriving DecidableEq, Repr

/-- Overwrite `l` starting at position `i` with the bytes `bs`
(`copy_from_slice` on a subslice). -/
def listOverwrite (l : List Nat) (i : Nat) (bs : List Nat) : List Nat :=
  l.take i ++ bs ++ l.drop (i + bs.length)

/-- Read `n` bytes at guest address `addr`; `none` on an out-of-bounds access,
as `vm-memory` reads fail outside the registered region. -/
def readBytes (m : GuestMem) (addr n : Nat) : Option (List Nat) :=
  if m.base ≤ addr ∧ addr + n ≤ m.base + m.bytes.length then
    some ((m.bytes.drop (addr - m.base)).take n)
  else none

/-- Write the bytes `bs` at guest address `addr`; `none` on out-of-bounds. -/
def writeBytes (m : GuestMem) (addr : Nat) (bs : List Nat) : Option GuestMem :=
  if m.base ≤ addr ∧ addr + bs.length ≤ m.base + m.bytes.length then
    some ⟨m.base, listOverwrite m.bytes (addr - m.base) bs⟩
  else none

/-- Little-endian byte-list decoding, as `read_obj` on a little-endian host. -/
def bytesToNatLE : List Nat → Nat
  | [] => 0
  | b :: rest => b + 256 * bytesToNatLE rest

/-- `memory.read_obj::<u32>(addr)`. -/
def readU32 (m : GuestMem) (addr : Nat) : Option Nat :=
  (readBytes m addr 4).map bytesToNatLE

/-- `memory.read_obj::<u64>(addr)`. -/
def readU64 (m : GuestMem) (addr : Nat) : Option Nat :=
  (readBytes m addr 8).map bytesToNatLE

/-- `u64::checked_add`: `none` when the sum does not fit in 64 bits. -/
def checkedAddU64 (a b : Nat) : Option Nat :=
  if a + b < u64Mod then some (a + b) else none

/-- Half-open slice `l[a..b]` of a byte list (Rust range indexing; bounds are
checked separately by the caller, matching the panicking slice operator). -/
def sliceList (l : List Nat) (a b : Nat) : List Nat :=
  (l.drop a).take (b - a)

/-- One virtqueue descriptor as the device consumes it: guest address and
length of the buffer it points to. -/
structure Descriptor where
  addr : Nat
  len : Nat
deriving DecidableEq, Repr

/-- A popped descriptor chain: its head index in the ring and the descriptors
yielded by the chain iterator, in order. -/
structure Chain where
  headIndex : Nat
  descs : List Descriptor
deriving DecidableEq, Repr

/-- An entry published to the used ring by `add_used(head, len)`. -/
structure UsedElem where
  head : Nat
  len : Nat
deriving DecidableEq, Repr

/-- Observable events emitted while a chain is processed, used to state the
ordering of used-ring publication and interrupt triggering. -/
inductive Ev where
  | statusWrite (addr : Nat) (val : Nat)
  | addUsed (head : Nat) (len : Nat)
  | trigger
deriving DecidableEq, Repr

/-- How the body of the `while` loop in `process_descriptor_chain` ends for
one chain: fall through to the next chain, early `return`, or a Rust panic. -/
inductive ChainOutcome where
  | next
  | stop
  | panic
deriving DecidableEq, Repr

/-- Effect of processing a single descriptor chain. -/
structure ChainStep where
  mem : GuestMem
  disk : List Nat
  published : Option UsedElem
  events : List Ev
  outcome : ChainOutcome
deriving DecidableEq, Repr

/-- Header parsing phase of the loop body: first descriptor, `type` at its
address, `sector` at `addr + 8` (via `u64::checked_add`), then the second
(data) descriptor.  All of these reads are failure-checked in the source and
mutate nothing; any failure causes an early `return`. -/
def parseHead (mem : GuestMem) (c : Chain) : Option (Nat × Nat × Descriptor) := do
  let header ← c.descs[0]?
  let requestType ← readU32 mem header.addr
  let sectorAddress ← checkedAddU64 header.addr 8
  let sector ← readU64 mem sectorAddress
  let dataDesc ← c.descs[1]?
  pure (requestType, sector, dataDesc)

/-- Result of the request-type dispatch (`match request_type`): success,
early `return` (guest-memory error), or a Rust panic from out-of-range slice
indexing of the backing mmap. -/
inductive IoResult where
  | ok (mem : GuestMem) (disk : List Nat)
  | ret (mem : GuestMem) (disk : List Nat)
  | panic
deriving DecidableEq, Repr

/-- The `match request_type` block of `process_descriptor_chain`.
`VIRTIO_BLK_T_IN = 0` copies disk bytes to the guest buffer,
`VIRTIO_BLK_T_OUT = 1` copies the guest buffer to the disk, any other type is
a no-op.  `sector * 512` and the end offset are wrapping `u64` products/sums
(`sector_offset + data.len() as u64`); the slice `disk[lo..hi]` panics when
`lo > hi` or `hi` exceeds the backing length — the source performs no bounds
check of its own. -/
def diskDispatch (requestType sector : Nat) (dataDesc : Descriptor)
    (mem : GuestMem) (disk : List Nat) : IoResult :=
  if requestType = 0 then
    let sectorOffset := sector * 512 % u64Mod
    let endOffset := (sectorOffset + dataDesc.len) % u64Mod
    if sectorOffset ≤ endOffset ∧ endOffset ≤ disk.length then
      match writeBytes mem dataDesc.addr (sliceList disk sectorOffset endOffset) with
      | some m => .ok m disk
      | none => .ret mem disk
    else .panic
  else if requestType = 1 then
    let sectorOffset := sector * 512 % u64Mod
    let endOffset := (sectorOffset + dataDesc.len) % u64Mod
    match readBytes mem dataDesc.addr dataDesc.len with
    | some buffer =>
      if sectorOffset ≤ endOffset ∧ endOffset ≤ disk.length then
        if endOffset - sectorOffset = buffer.length then
          .ok mem (listOverwrite disk sectorOffset buffer)
        else .panic
      else .panic
    | none => .ret mem disk
  else .ok mem disk

/-- Body of the `while let Some(chain) = pop_descriptor_chain` loop for one
chain, translated clause by clause from `process_descriptor_chain`:
parse the header, dispatch on the request type, fetch the status descriptor,
write the status byte `0`, `add_used(head_index, data.len())`, and trigger the
interrupt when `needs_notification` (the `notifyFlag` argument) holds. -/
def processOneChain (notifyFlag : Bool) (mem : GuestMem) (disk : List Nat)
    (c : Chain) : ChainStep :=
  match parseHead mem c with
  | none => ⟨mem, disk, none, [], .stop⟩
  | some (requestType, sector, dataDesc) =>
    match diskDispatch requestType sector dataDesc mem disk with
    | .panic => ⟨mem, disk, none, [], .panic⟩
    | .ret m d => ⟨m, d, none, [], .stop⟩
    | .ok m d =>
      match c.descs[2]? with
      | none => ⟨m, d, none, [], .stop⟩
      | some statusDesc =>
        match writeBytes m statusDesc.addr [0] with
        | none => ⟨m, d, none, [], .stop⟩
        | some m2 =>
          ⟨m2, d, some ⟨c.headIndex, dataDesc.len⟩,
            [.statusWrite statusDesc.addr 0, .addUsed c.headIndex dataDesc.len]
              ++ (if notifyFlag then [.trigger] else []),
            .next⟩

/-- Virtqueue configuration state held by the device (`QueueSync`):
size, the three ring addresses, and the ready flag. -/
structure QueueCfg where
  size : Nat
  desc_table : Nat
  avail_ring : Nat
  used_ring : Nat
  ready : Bool
deriving DecidableEq, Repr

/-- Device state threaded through MMIO handling: guest memory, backing disk
bytes, queue configuration, the chains the available ring will yield, the
used-ring publications so far, the `needs_notification` answer, the emitted
event trace, and whether processing panicked. -/
structure DeviceState where
  mem : GuestMem
  disk : List Nat
  cfg : QueueCfg
  chains : List Chain
  used : List UsedElem
  notifyFlag : Bool
  events : List Ev
  panicked : Bool
deriving DecidableEq, Repr

/-- Accumulated result of draining the available chains. -/
structure RunResult where
  mem : GuestMem
  disk : List Nat
  used : List UsedElem
  events : List Ev
  panicked : Bool
  remaining : List Chain
deriving DecidableEq, Repr

/-- Drain the available chains in order.  A chain ending in `.next` lets the
loop continue; an early `return` (`.stop`) or a panic ends processing with the
not-yet-popped chains left on the ring. -/
def runChains (notifyFlag : Bool) (mem : GuestMem) (disk : List Nat) :
    List Chain → RunResult
  | [] => ⟨mem, disk, [], [], false, []⟩
  | c :: rest =>
    let s := processOneChain notifyFlag mem disk c
    match s.outcome with
    | .next =>
      let r := runChains notifyFlag s.mem s.disk rest
      ⟨r.mem, r.disk, s.published.toList ++ r.used, s.events ++ r.events,
        r.panicked, r.remaining⟩
    | .stop => ⟨s.mem, s.disk, s.published.toList, s.events, false, rest⟩
    | .panic => ⟨s.mem, s.disk, s.published.toList, s.events, true, rest⟩

/-- `VirtioBlockDevice::process_descriptor_chain`: return immediately when the
queue is not ready, otherwise drain the available chains. -/
def process_descriptor_chain (st : DeviceState) : DeviceState :=
  if st.cfg.ready then
    let r := runChains st.notifyFlag st.mem st.disk st.chains
    { st with
      mem := r.mem, disk := r.disk, chains := r.remaining,
      used := st.used ++ r.used, events := st.events ++ r.events,
      panicked := r.panicked }
  else st

/-- `VirtioBlockDevice::read_mmio`: the fixed 32-bit register map. -/
def read_mmio (offset : Nat) : Nat :=
  if offset = 0x000 then 0x74726976
  else if offset = 0x004 then 2
  else if offset = 0x008 then 2
  else if offset = 0x00c then 0x554d4551
  else if offset = 0x010 then 0
  else 0

/-- `VirtioBlockDevice::write_mmio`: only `VIRTIO_MMIO_QUEUE_NOTIFY` (0x50)
does anything — it runs `process_descriptor_chain`; every other write is
ignored. -/
def write_mmio (st : DeviceState) (offset : Nat) : DeviceState :=
  if offset = 0x50 then process_descriptor_chain st else st

/-- Validity check run by `VirtioBlockDevice::new` on the configured queue,
modelling `QueueT::is_valid` of the external `virtio-queue` crate as the spec
describes it: the queue must be ready and each ring must be suitably aligned
(descriptor table 16 B, available ring 2 B, used ring 4 B) and lie entirely
within guest memory (descriptor table `16·size` bytes, available ring
`6 + 2·size` bytes, used ring `6 + 8·size` bytes). -/
def queueIsValid (memBase memLen : Nat) (q : QueueCfg) : Bool :=
  q.ready &&
  decide (q.desc_table % 16 = 0) &&
  decide (q.avail_ring % 2 = 0) &&
  decide (q.used_ring % 4 = 0) &&
  decide (memBase ≤ q.desc_table ∧ q.desc_table + 16 * q.size ≤ memBase + memLen) &&
  decide (memBase ≤ q.avail_ring ∧ q.avail_ring + (6 + 2 * q.size) ≤ memBase + memLen) &&
  decide (memBase ≤ q.used_ring ∧ q.used_ring + (6 + 8 * q.size) ≤ memBase + memLen)

/-- Construction failure of `VirtioBlockDevice::new` (the `Err(String)` arm
raised when `is_valid` rejects the fixed configuration). -/
inductive BlockDevNewError where
  | queueInvalid
deriving DecidableEq, Repr

/-- The queue configuration produced by `VirtioBlockDevice::new` before
validation: `QueueSync::new(1024)` (which succeeds for size 1024), then the
hardcoded ring addresses and `set_ready(true)`. -/
def initialQueueCfg : QueueCfg :=
  { size := 1024, desc_table := 0x1000, avail_ring := 0x2000,
    used_ring := 0x3000, ready := true }

/-- `VirtioBlockDevice::new`: configure the fixed queue, then fail exactly
when `is_valid` rejects it against the supplied guest memory. -/
def virtioBlockDeviceNew (memBase memLen : Nat) :
    Except BlockDevNewError QueueCfg :=
  if queueIsValid memBase memLen initialQueueCfg then .ok initialQueueCfg
  else .error .queueInvalid

/-- The vCPU exit reasons matched by the run loop in `run_vm`
(`kvm_ioctls::VcpuExit`); `unhandled` stands for the wildcard arm. -/
inductive VcpuExitR where
  | hlt
  | ioIn (port : Nat)
  | ioOut (port : Nat)
  | mmioRead (addr : Nat)
  | mmioWrite (addr : Nat)
  | shutdown
  | internalError
  | systemEvent
  | unhandled
deriving DecidableEq, Repr

/-- Non-error completion of a vCPU task (the `Ok(String)` messages). -/
inductive VcpuDone where
  | halted (cpu : Nat)
  | shutdown (cpu : Nat)
deriving DecidableEq, Repr

/-- Faulting completion of a vCPU task (the `Err(String)` messages), kept
structured: each constructor records what the message reports. -/
inductive VcpuFault where
  | ioIn (cpu port : Nat)
  | ioOut (cpu port : Nat)
  | mmioRead (cpu addr : Nat)
  | mmioWrite (cpu addr : Nat)
  | internalError (cpu : Nat)
  | systemEvent (cpu : Nat)
  | unhandled (cpu : Nat)
deriving DecidableEq, Repr

/-- The exit-handling `match` inside the vCPU loop of `run_vm`.  Every arm of
the source `match` returns from the closure, so one exit determines the task's
result: `Ok` for `Hlt` and `Shutdown`, `Err` for everything else — including
every `MmioRead`/`MmioWrite`, which are never dispatched to a device. -/
def handleExit (cpu : Nat) : VcpuExitR → Except VcpuFault VcpuDone
  | .hlt => .ok (.halted cpu)
  | .ioIn port => .error (.ioIn cpu port)
  | .ioOut port => .error (.ioOut cpu port)
  | .mmioRead addr => .error (.mmioRead cpu addr)
  | .mmioWrite addr => .error (.mmioWrite cpu addr)
  | .shutdown => .ok (.shutdown cpu)
  | .internalError => .error (.internalError cpu)
  | .systemEvent => .error (.systemEvent cpu)
  | .unhandled => .error (.unhandled cpu)

/-- The `for handler in handlers` reduction at the end of `run_vm`: await the
per-vCPU results in spawn order, return the first `Err` encountered, and
`Ok(())` only after every task completed without error. -/
def awaitVcpus : List (Except VcpuFault VcpuDone) → Except VcpuFault Unit
  | [] => .ok ()
  | .ok _ :: rest => awaitVcpus rest
  | .error e :: _ => .error e

/-- The faults among a list of per-vCPU results, in order. -/
def vcpuFaults (rs : List (Except VcpuFault VcpuDone)) : List VcpuFault :=
  rs.filterMap fun r =>
    match r with
    | .error e => some e
    | .ok _ => none

/-- The record built by `VmSetup::new` (`setup_utils.rs`): memory size in
bytes (`usize`) and the vCPU count (`u32`). -/
structure VmSetup where
  memory : Nat
  cpu_cores_count : Nat
deriving DecidableEq, Repr

/-- `VmSetup::new`: a core count of 0 or 1 is normalized to 2, and the memory
size is `1024 * 1024 * mega_bytes as usize` (64-bit `usize` arithmetic). -/
def VmSetup.new (mega_bytes cpu_cores_count : Nat) : VmSetup :=
  let cpu_cores_to_set :=
    if cpu_cores_count = 0 ∨ cpu_cores_count = 1 then 2 else cpu_cores_count
  { memory := 1024 * 1024 * mega_bytes % u64Mod,
    cpu_cores_count := cpu_cores_to_set }

/-! Helper lemmas about the memory primitives and the loop body. -/

theorem listOverwrite_length (l bs : List Nat) (i : Nat)
    (h : i + bs.length ≤ l.length) :
    (listOverwrite l i bs).length = l.length := by
  simp only [listOverwrite, List.length_append, List.length_take, List.length_drop]
  omega

theorem writeBytes_eq_some (m : GuestMem) (a : Nat) (bs : List Nat)
    (h : m.base ≤ a ∧ a + bs.length ≤ m.base + m.bytes.length) :
    writeBytes m a bs = some ⟨m.base, listOverwrite m.bytes (a - m.base) bs⟩ := by
  unfold writeBytes
  rw [if_pos h]

theorem readBytes_writeBytes_self (m m2 : GuestMem) (a : Nat) (bs : List Nat)
    (hw : writeBytes m a bs = some m2) :
    readBytes m2 a bs.length = some bs := by
  unfold writeBytes at hw
  split at hw
  case isTrue h =>
    have hm2 : m2 = ⟨m.base, listOverwrite m.bytes (a - m.base) bs⟩ :=
      (Option.some.injEq _ _).mp hw.symm
    subst hm2
    have hi : (a - m.base) + bs.length ≤ m.bytes.length := by omega
    unfold readBytes
    rw [if_pos]
    · show some (((listOverwrite m.bytes (a - m.base) bs).drop (a - m.base)).take
        bs.length) = some bs
      have htk : (m.bytes.take (a - m.base)).length = a - m.base := by
        simp only [List.length_take]
        omega
      simp only [listOverwrite, List.append_assoc]
      rw [List.drop_left' htk, List.take_left' rfl]
    · show m.base ≤ a ∧
        a + bs.length ≤ m.base + (listOverwrite m.bytes (a - m.base) bs).length
      rw [listOverwrite_length m.bytes bs (a - m.base) hi]
      omega
  case isFalse => exact absurd hw (by simp)

theorem diskDispatch_other (rt sec : Nat) (dd : Descriptor) (m : GuestMem)
    (d : List Nat) (h0 : rt ≠ 0) (h1 : rt ≠ 1) :
    diskDispatch rt sec dd m d = .ok m d := by
  simp [diskDispatch, h0, h1]

/-- Full success path of the loop body for a request type other than IN and
OUT: no disk access, status byte `0`, a used-ring publication with the data
descriptor's length, and the trigger exactly when notification is needed. -/
theorem processOneChain_other (f : Bool) (m : GuestMem) (d : List Nat)
    (c : Chain) (rt sec : Nat) (dd sd : Descriptor) (m2 : GuestMem)
    (hparse : parseHead m c = some (rt, sec, dd))
    (h0 : rt ≠ 0) (h1 : rt ≠ 1)
    (hsd : c.descs[2]? = some sd)
    (hw : writeBytes m sd.addr [0] = some m2) :
    processOneChain f m d c =
      ⟨m2, d, some ⟨c.headIndex, dd.len⟩,
        [.statusWrite sd.addr 0, .addUsed c.headIndex dd.len]
          ++ (if f then [.trigger] else []), .next⟩ := by
  simp only [processOneChain, hparse, diskDispatch_other rt sec dd m d h0 h1,
    hsd, hw]

theorem awaitVcpus_ok_iff (rs : List (Except VcpuFault VcpuDone)) :
    awaitVcpus rs = .ok () ↔ vcpuFaults rs = [] := by
  induction rs with
  | nil => simp [awaitVcpus, vcpuFaults]
  | cons r rest ih =>
    cases r with
    | ok d => simpa [awaitVcpus, vcpuFaults] using ih
    | error e => simp [awaitVcpus, vcpuFaults]

theorem awaitVcpus_error_iff (rs : List (Except VcpuFault VcpuDone))
    (e : VcpuFault) :
    awaitVcpus rs = .error e ↔ (vcpuFaults rs).head? = some e := by
  induction rs with
  | nil => simp [awaitVcpus, vcpuFaults]
  | cons r rest ih =>
    cases r with
    | ok d => simpa [awaitVcpus, vcpuFaults] using ih
    | error e0 => simp [awaitVcpus, vcpuFaults]

theorem handleExit_ok_iff (cpu : Nat) (ex : VcpuExitR) :
    (∃ d, handleExit cpu ex = .ok d) ↔ (ex = .hlt ∨ ex = .shutdown) := by
  cases ex <;> simp [handleExit]

/-! Concrete inputs used by the counterexamples, code-bug evaluations and
witnesses.  Guest memory is 40 bytes at base 0; the conforming chain has the
request header at address 0, a 4-byte data buffer at 16 and the status byte at
32, head index 5 in the ring. -/

/-- Three-descriptor chain: header descriptor, 4-byte data, 1-byte status. -/
def chain3desc : Chain := ⟨5, [⟨0, 16⟩, ⟨16, 4⟩, ⟨32, 1⟩]⟩

/-- Guest memory holding a request of type 99 (unsupported), sector 0. -/
def memType99 : GuestMem :=
  ⟨0, [99, 0, 0, 0, 0, 0, 0, 0, 0, 0, 0, 0, 0, 0, 0, 0] ++ List.replicate 24 0⟩

/-- Guest memory holding a type-IN request with sector `2 ^ 30`
(the spec's out-of-bounds scenario; little-endian sector bytes). -/
def memSectorOob : GuestMem :=
  ⟨0, [0, 0, 0, 0, 0, 0, 0, 0, 0, 0, 0, 64, 0, 0, 0, 0] ++ List.replicate 24 0⟩

/-- Guest memory holding a type-IN request with sector `2 ^ 55`, for which
`sector * 512` wraps to 0 in `u64` arithmetic. -/
def memSectorWrap : GuestMem :=
  ⟨0, [0, 0, 0, 0, 0, 0, 0, 0, 0, 0, 0, 0, 0, 0, 128, 0] ++ List.replicate 24 0⟩

/-- An 8-byte backing disk image. -/
def diskSmall8 : List Nat := [1, 2, 3, 4, 5, 6, 7, 8]

/-- A 4-byte backing disk image with recognizable content. -/
def diskBytes4 : List Nat := [222, 173, 190, 239]

/-- Device holding the unsupported-type request. -/
def stType99 : DeviceState :=
  ⟨memType99, diskSmall8, initialQueueCfg, [chain3desc], [], false, [], false⟩

/-- Device holding the out-of-bounds type-IN request. -/
def stOob : DeviceState :=
  ⟨memSectorOob, diskSmall8, initialQueueCfg, [chain3desc], [], false, [], false⟩

/-- Device holding the offset-wrapping type-IN request. -/
def stWrap : DeviceState :=
  ⟨memSectorWrap, diskBytes4, initialQueueCfg, [chain3desc], [], false, [], false⟩

/-- A chain with no descriptors at all (protocol violation). -/
def chainEmpty : Chain := ⟨3, []⟩

/-- Per-vCPU results with vCPU 0 halted and vCPUs 1 and 2 faulted. -/
def vcpuResultsExample : List (Except VcpuFault VcpuDone) :=
  [.ok (.halted 0), .error (.mmioWrite 1 0x1050), .error (.internalError 2)]

/-! Claim theorems. -/

/-- C1 counterexample: on the unsupported request type 99 the device writes
status byte 0 — not 2 as claimed — while still publishing the chain with
`len = data.len` and leaving the backing disk unchanged. -/
theorem c1_counterexample :
    readBytes (process_descriptor_chain stType99).mem 32 1 = some [0] ∧
    readBytes (process_descriptor_chain stType99).mem 32 1 ≠ some [2] ∧
    (process_descriptor_chain stType99).used = [⟨5, 4⟩] ∧
    (process_descriptor_chain stType99).disk = stType99.disk := by
  decide

/-- C1 (amended): for every descriptor chain whose request type is not IN,
OUT, or FLUSH, `process_descriptor_chain` writes status byte 0 (the code
writes 0 unconditionally), publishes the chain to the used ring with
`len = data.len`, and leaves the backing disk image unchanged. -/
theorem c1_unsupported_status_zero (st : DeviceState) (c : Chain)
    (rt sec : Nat) (dd sd : Descriptor)
    (hready : st.cfg.ready = true)
    (hchains : st.chains = [c])
    (hparse : parseHead st.mem c = some (rt, sec, dd))
    (hsd : c.descs[2]? = some sd)
    (h0 : rt ≠ 0) (h1 : rt ≠ 1) (h4 : rt ≠ 4)
    (hb : st.mem.base ≤ sd.addr ∧
      sd.addr + 1 ≤ st.mem.base + st.mem.bytes.length) :
    readBytes (process_descriptor_chain st).mem sd.addr 1 = some [0] ∧
    (process_descriptor_chain st).used = st.used ++ [⟨c.headIndex, dd.len⟩] ∧
    (process_descriptor_chain st).disk = st.disk := by
  have hw : writeBytes st.mem sd.addr [0] =
      some ⟨st.mem.base, listOverwrite st.mem.bytes (sd.addr - st.mem.base) [0]⟩ :=
    writeBytes_eq_some st.mem sd.addr [0] (by simpa using hb)
  have hpo := processOneChain_other st.notifyFlag st.mem st.disk c rt sec dd sd
    _ hparse h0 h1 hsd hw
  have hread := readBytes_writeBytes_self st.mem _ sd.addr [0] hw
  simp only [process_descriptor_chain, hready, if_true, hchains, runChains,
    hpo]
  exact ⟨by simpa using hread, by simp, trivial⟩

/-- C1 witness: the amended theorem applied to the concrete type-99 request. -/
theorem c1_witness :
    (stType99.cfg.ready = true ∧ stType99.chains = [chain3desc] ∧
      parseHead stType99.mem chain3desc = some (99, 0, ⟨16, 4⟩) ∧
      chain3desc.descs[2]? = some ⟨32, 1⟩) ∧
    (readBytes (process_descriptor_chain stType99).mem 32 1 = some [0] ∧
      (process_descriptor_chain stType99).used = stType99.used ++ [⟨5, 4⟩] ∧
      (process_descriptor_chain stType99).disk = stType99.disk) :=
  ⟨by decide,
    c1_unsupported_status_zero stType99 chain3desc 99 0 ⟨16, 4⟩ ⟨32, 1⟩
      (by decide) (by decide) (by decide) (by decide) (by decide) (by decide)
      (by decide) (by decide)⟩

/-- C2: evaluation of the code at the spec's out-of-bounds scenario
(type IN, sector `2 ^ 30`, 8-byte backing).  The slice indexing of the
backing mmap panics: processing aborts with no status byte written, no
used-ring publication, and no guest-memory mutation — the claimed status-1
completion never happens. -/
theorem c2_oob_panics :
    readU64 stOob.mem 8 = some (2 ^ 30) ∧
    (process_descriptor_chain stOob).panicked = true ∧
    (process_descriptor_chain stOob).used = [] ∧
    (process_descriptor_chain stOob).events = [] ∧
    (process_descriptor_chain stOob).mem = stOob.mem ∧
    (process_descriptor_chain stOob).disk = stOob.disk := by
  decide

/-- C3: evaluation of the code at a type-IN request with sector `2 ^ 55`.
The offset computation `sector * 512` wraps to 0 in `u64` arithmetic and the
request completes from disk offset 0 with success status — there is no
checked multiplication and no IoFault/status-1 outcome. -/
theorem c3_wrapped_offset_proceeds :
    readU64 stWrap.mem 8 = some (2 ^ 55) ∧
    2 ^ 55 * 512 % u64Mod = 0 ∧
    (process_descriptor_chain stWrap).panicked = false ∧
    readBytes (process_descriptor_chain stWrap).mem 16 4 =
      some [222, 173, 190, 239] ∧
    readBytes (process_descriptor_chain stWrap).mem 32 1 = some [0] ∧
    (process_descriptor_chain stWrap).used = [⟨5, 4⟩] := by
  decide

/-- C4: a chain dropped by an early `return` of the loop body (missing
header, data, or status descriptor, or a failed guest-memory access) is never
published: no `add_used` happens for it and no event is emitted. -/
theorem c4_dropped_chain_not_published (f : Bool) (m : GuestMem)
    (d : List Nat) (c : Chain)
    (h : (processOneChain f m d c).outcome = ChainOutcome.stop) :
    (processOneChain f m d c).published = none ∧
    (processOneChain f m d c).events = [] := by
  unfold processOneChain at h ⊢
  rcases hp : parseHead m c with _ | ⟨rt, sec, dd⟩ <;> simp only [hp] at h ⊢
  · simp
  · cases hd : diskDispatch rt sec dd m d with
    | ok m1 d1 =>
      simp only [hd] at h ⊢
      rcases hs : c.descs[2]? with _ | sd <;> simp only [hs] at h ⊢
      · simp
      · rcases hw : writeBytes m1 sd.addr [0] with _ | m2 <;>
          simp only [hw] at h ⊢
        · simp
        · exact absurd h (by simp)
    | ret m1 d1 => simp only [hd] at h ⊢; simp
    | panic => simp only [hd] at h ⊢; exact absurd h (by simp)

/-- C4 witness: the theorem applied to a chain with no descriptors. -/
theorem c4_witness :
    (processOneChain false memType99 diskSmall8 chainEmpty).outcome =
      ChainOutcome.stop ∧
    ((processOneChain false memType99 diskSmall8 chainEmpty).published = none ∧
      (processOneChain false memType99 diskSmall8 chainEmpty).events = []) :=
  ⟨by decide,
    c4_dropped_chain_not_published false memType99 diskSmall8 chainEmpty
      (by decide)⟩

/-- C5: in the event trace of any single chain, an interrupt trigger only
ever occurs after that chain's used-ring publication: every `trigger` event
is preceded by an `addUsed` event. -/
theorem c5_addused_before_trigger (f : Bool) (m : GuestMem) (d : List Nat)
    (c : Chain) (i : Nat)
    (h : (processOneChain f m d c).events[i]? = some Ev.trigger) :
    ∃ j hd ln, j < i ∧
      (processOneChain f m d c).events[j]? = some (Ev.addUsed hd ln) := by
  unfold processOneChain at h ⊢
  rcases hp : parseHead m c with _ | ⟨rt, sec, dd⟩ <;> simp only [hp] at h ⊢
  · simp at h
  · cases hd : diskDispatch rt sec dd m d with
    | ok m1 d1 =>
      simp only [hd] at h ⊢
      rcases hs : c.descs[2]? with _ | sd <;> simp only [hs] at h ⊢
      · simp at h
      · rcases hw : writeBytes m1 sd.addr [0] with _ | m2 <;>
          simp only [hw] at h ⊢
        · simp at h
        · cases f
          · rcases i with _ | _ | i <;> simp at h
          · rcases i with _ | _ | _ | i <;> simp at h
            exact ⟨1, c.headIndex, dd.len, by omega, by simp⟩
    | ret m1 d1 => simp only [hd] at h; simp at h
    | panic => simp only [hd] at h; simp at h

/-- C5 witness: the theorem applied to the concrete notified type-99 chain,
whose trace is status write, used-ring publication, then trigger. -/
theorem c5_witness :
    (processOneChain true memType99 diskSmall8 chain3desc).events[2]? =
      some Ev.trigger ∧
    (∃ j hd ln, j < 2 ∧
      (processOneChain true memType99 diskSmall8 chain3desc).events[j]? =
        some (Ev.addUsed hd ln)) :=
  ⟨by decide,
    c5_addused_before_trigger true memType99 diskSmall8 chain3desc 2
      (by decide)⟩

/-- C6: the MMIO register map — magic at 0x000, version 2, device id 2,
vendor id at 0x00C, zero host features at 0x010, and zero at every other
offset. -/
theorem c6_mmio_register_map :
    read_mmio 0x000 = 0x74726976 ∧ read_mmio 0x004 = 2 ∧
    read_mmio 0x008 = 2 ∧ read_mmio 0x00c = 0x554d4551 ∧
    read_mmio 0x010 = 0 ∧
    ∀ offset, offset ≠ 0x000 → offset ≠ 0x004 → offset ≠ 0x008 →
      offset ≠ 0x00c → offset ≠ 0x010 → read_mmio offset = 0 := by
  refine ⟨rfl, rfl, rfl, rfl, rfl, ?_⟩
  intro o h0 h4 h8 hc h10
  simp [read_mmio, h0, h4, h8, hc, h10]

/-- C6 witness: the default arm of the register map at offset 0x100. -/
theorem c6_witness : read_mmio 0x100 = 0 :=
  c6_mmio_register_map.2.2.2.2.2 0x100 (by decide) (by decide) (by decide)
    (by decide) (by decide)

/-- C7 counterexample: an MMIO write exit at 0x1050, inside the device window
`[0x1000, 0x1000 + 0x1000)` of the reference configuration, makes the vCPU
loop of `run_vm` return an `Err` fault — it is not dispatched to the device
and the vCPU is not resumed (the read exit at the same address faults too). -/
theorem c7_counterexample :
    (0x1000 : Nat) ≤ 0x1050 ∧ (0x1050 : Nat) < 0x1000 + 0x1000 ∧
    handleExit 0 (VcpuExitR.mmioWrite 0x1050) =
      Except.error (VcpuFault.mmioWrite 0 0x1050) ∧
    handleExit 0 (VcpuExitR.mmioRead 0x1050) =
      Except.error (VcpuFault.mmioRead 0 0x1050) :=
  ⟨by decide, by decide, rfl, rfl⟩

/-- C7 (amended): on every MMIO exit — at any address, including the device
window — the vCPU loop of `run_vm` terminates the vCPU with a fault recording
the access; it never dispatches to the device's `read_mmio`/`write_mmio` and
never resumes the vCPU. -/
theorem c7_mmio_exit_faults (cpu addr : Nat) :
    handleExit cpu (VcpuExitR.mmioRead addr) =
      Except.error (VcpuFault.mmioRead cpu addr) ∧
    handleExit cpu (VcpuExitR.mmioWrite addr) =
      Except.error (VcpuFault.mmioWrite cpu addr) :=
  ⟨rfl, rfl⟩

/-- C8: the await loop of `run_vm` yields `Ok(())` exactly when no vCPU
faulted, yields the first fault in task order otherwise, and a vCPU result is
non-error exactly for the halt and shutdown exits. -/
theorem c8_first_fault_wins (rs : List (Except VcpuFault VcpuDone)) :
    (awaitVcpus rs = .ok () ↔ vcpuFaults rs = []) ∧
    (∀ e, awaitVcpus rs = .error e ↔ (vcpuFaults rs).head? = some e) ∧
    (∀ cpu ex, (∃ d, handleExit cpu ex = .ok d) ↔
      (ex = .hlt ∨ ex = .shutdown)) :=
  ⟨awaitVcpus_ok_iff rs, fun e => awaitVcpus_error_iff rs e,
    fun cpu ex => handleExit_ok_iff cpu ex⟩

/-- C8 witness: with vCPU 0 halted and vCPUs 1 and 2 faulted, the await loop
returns vCPU 1's fault, the first in task order. -/
theorem c8_witness :
    awaitVcpus vcpuResultsExample =
      .error (VcpuFault.mmioWrite 1 0x1050) ∧
    (vcpuFaults vcpuResultsExample).head? =
      some (VcpuFault.mmioWrite 1 0x1050) :=
  ⟨((c8_first_fault_wins vcpuResultsExample).2.1 _).mpr (by decide),
    by decide⟩

/-- C9: `VmSetup::new` normalizes a core count of 0 or 1 to 2, passes any
other core count through unchanged, and sets the memory size to
`mega_bytes` MiB. -/
theorem c9_vmsetup_new (mega_bytes cpu_cores_count : Nat)
    (h : mega_bytes < 2 ^ 32) :
    (VmSetup.new mega_bytes cpu_cores_count).memory = mega_bytes * 2 ^ 20 ∧
    (VmSetup.new mega_bytes cpu_cores_count).cpu_cores_count =
      (if cpu_cores_count = 0 ∨ cpu_cores_count = 1 then 2
        else cpu_cores_count) := by
  constructor
  · show 1024 * 1024 * mega_bytes % u64Mod = mega_bytes * 2 ^ 20
    have h32 : mega_bytes < 4294967296 := by
      have : (2 : Nat) ^ 32 = 4294967296 := by norm_num
      omega
    have hlt : 1024 * 1024 * mega_bytes < u64Mod := by
      have : u64Mod = 18446744073709551616 := by norm_num [u64Mod]
      omega
    rw [Nat.mod_eq_of_lt hlt]
    ring
  · rfl

/-- C9 witness: 4 MiB with 0 requested cores gives 2 cores. -/
theorem c9_witness :
    (VmSetup.new 4 0).memory = 4 * 2 ^ 20 ∧
    (VmSetup.new 4 0).cpu_cores_count =
      (if (0 : Nat) = 0 ∨ (0 : Nat) = 1 then 2 else 0) :=
  c9_vmsetup_new 4 0 (by norm_num)

/-- C10: every successfully constructed device has the fixed, ready queue —
descriptor table 0x1000, available ring 0x2000, used ring 0x3000 — valid for
the supplied guest memory; construction fails exactly when that fixed
configuration is invalid; and no MMIO write can change the queue
configuration. -/
theorem c10_fixed_queue_config (memBase memLen : Nat) :
    (∀ q, virtioBlockDeviceNew memBase memLen = .ok q →
      q.desc_table = 0x1000 ∧ q.avail_ring = 0x2000 ∧ q.used_ring = 0x3000 ∧
      q.size = 1024 ∧ q.ready = true ∧
      queueIsValid memBase memLen q = true) ∧
    (virtioBlockDeviceNew memBase memLen = .error .queueInvalid ↔
      queueIsValid memBase memLen initialQueueCfg = false) ∧
    (∀ st offset, (write_mmio st offset).cfg = st.cfg) := by
  refine ⟨?_, ?_, ?_⟩
  · intro q hq
    cases hvalid : queueIsValid memBase memLen initialQueueCfg with
    | false => simp [virtioBlockDeviceNew, hvalid] at hq
    | true =>
      simp only [virtioBlockDeviceNew, hvalid, if_true, Except.ok.injEq] at hq
      subst hq
      exact ⟨rfl, rfl, rfl, rfl, rfl, hvalid⟩
  · cases hvalid : queueIsValid memBase memLen initialQueueCfg with
    | false => simp [virtioBlockDeviceNew, hvalid]
    | true => simp [virtioBlockDeviceNew, hvalid]
  · intro st offset
    unfold write_mmio
    split
    · unfold process_descriptor_chain
      split <;> rfl
    · rfl

/-- C10 witness: with 64 KiB of guest memory at base 0, construction succeeds
and yields exactly the fixed ready configuration. -/
theorem c10_witness :
    virtioBlockDeviceNew 0 0x10000 = .ok initialQueueCfg ∧
    (initialQueueCfg.desc_table = 0x1000 ∧
      initialQueueCfg.avail_ring = 0x2000 ∧
      initialQueueCfg.used_ring = 0x3000 ∧
      initialQueueCfg.size = 1024 ∧
      initialQueueCfg.ready = true ∧
      queueIsValid 0 0x10000 initialQueueCfg = true) :=
  ⟨rfl, (c10_fixed_queue_config 0 0x10000).1 initialQueueCfg rfl⟩
